import Mathlib

/-!
Verification of the Hooper NBA prediction pipeline.

This file gives a shallow embedding of the repository (model.py,
database.py, data_loader.py, main.py) and proves or refutes the frozen
claims about it.  Python floats are embedded as rationals, fallible
Python code returns `Except PyError`, the SQLite store is a record of
row lists, and the remote API is a page-indexed family of game lists.
-/

namespace Hooper

/-- Python exception classes relevant to the pipeline.  The code under
verification raises `attributeError` (missing attribute access) and
`valueError` (library input validation); `notFittedError` and
`emptyInputError` are the dedicated error classes the specification
names, included so that statements can distinguish them. -/
inductive PyError where
  | attributeError (attr : String)
  | valueError (msg : String)
  | notFittedError
  | emptyInputError
  deriving DecidableEq, Repr

/-- Message of the ValueError scikit-learn raises when the prediction
frame does not match the fitted feature columns. -/
def featureMismatchMsg : String := "X has a different number of features than during fit"

/-- Message of the ValueError scikit-learn raises when fit receives zero samples. -/
def zeroSamplesMsg : String := "Found array with 0 samples while a minimum of 1 is required"

/-- One row of the games frame consumed by `NBAPredictor.fit`
(columns used by prepare_features in model.py). -/
structure TrainGame where
  home_team_id : Int
  away_team_id : Int
  home_score : Int
  away_score : Int
  deriving DecidableEq, Repr

/-- Insert a string into a sorted list, keeping it sorted (helper for
the sorted category levels produced by pd.get_dummies). -/
def insertSorted (x : String) : List String → List String
  | [] => [x]
  | y :: ys => if x ≤ y then x :: y :: ys else y :: insertSorted x ys

/-- Sort a list of strings lexicographically, as pandas sorts the
string-typed category levels of a column. -/
def sortStrings (l : List String) : List String := l.foldr insertSorted []

/-- Column names produced by
pd.get_dummies(games_df[[home_team_id, away_team_id]].astype(str)):
one indicator column per distinct home value (sorted, prefixed with
home_team_id_) followed by one per distinct away value. -/
def dummyColumns (games : List TrainGame) : List String :=
  (sortStrings (games.map (fun g => toString g.home_team_id)).eraseDups).map
      (fun v => "home_team_id_" ++ v) ++
    (sortStrings (games.map (fun g => toString g.away_team_id)).eraseDups).map
      (fun v => "away_team_id_" ++ v)

/-- One row of the one-hot feature matrix for a training game. -/
def featureRow (cols : List String) (g : TrainGame) : List ℚ :=
  cols.map (fun c =>
    if c = "home_team_id_" ++ toString g.home_team_id ∨
        c = "away_team_id_" ++ toString g.away_team_id then (1 : ℚ) else 0)

/-- A pandas DataFrame of numeric columns: named columns plus rows. -/
structure Frame where
  cols : List String
  rows : List (List ℚ)

/-- State of a fitted LinearRegression together with the saved
feature_columns attribute: the fitted column list, a coefficient for
each column, and the intercept. -/
structure FittedState where
  feature_columns : List String
  coef : String → ℚ
  intercept : ℚ

/-- The NBAPredictor object of model.py.  A fresh instance has no
feature_columns attribute (`fitted = none`); fit installs it. -/
structure NBAPredictor where
  fitted : Option FittedState

/-- Freshly constructed predictor: NBAPredictor.__init__ does not set
feature_columns, so the attribute is absent. -/
def NBAPredictor.init : NBAPredictor := { fitted := none }

/-- prepare_features of model.py: the one-hot feature frame and the
point-differential target home_score - away_score. -/
def NBAPredictor.prepare_features (games : List TrainGame) : Frame × List ℚ :=
  let cols := dummyColumns games
  ({ cols := cols, rows := games.map (featureRow cols) },
    games.map (fun g => ((g.home_score - g.away_score : Int) : ℚ)))

/-- LinearRegression.fit of scikit-learn, with its ordinary
least-squares routine abstracted as `solver` (its numeric output is
not the subject of any claim).  Input validation rejects an empty
sample set with a ValueError. -/
def sklearnFit (solver : List (List ℚ) → List ℚ → List ℚ × ℚ)
    (X : Frame) (y : List ℚ) : Except PyError (List ℚ × ℚ) :=
  if X.rows.length = 0 then Except.error (PyError.valueError zeroSamplesMsg)
  else Except.ok (solver X.rows y)

/-- Read the coefficient attached to a column name, given the parallel
lists of column names and fitted coefficients. -/
def lookupCoef : List String → List ℚ → String → ℚ
  | [], _, _ => 0
  | _ :: _, [], _ => 0
  | c :: cs, v :: vs, k => if k = c then v else lookupCoef cs vs k

/-- NBAPredictor.fit of model.py: build features, fit the linear
model, and save the training columns for prediction. -/
def NBAPredictor.fit (solver : List (List ℚ) → List ℚ → List ℚ × ℚ)
    (games : List TrainGame) : Except PyError NBAPredictor :=
  let Xy := NBAPredictor.prepare_features games
  (sklearnFit solver Xy.1 Xy.2).map (fun cb =>
    { fitted := some
        { feature_columns := Xy.1.cols
          coef := lookupCoef Xy.1.cols cb.1
          intercept := cb.2 } })

/-- A concrete stand-in for the least-squares routine, used to
instantiate `solver` on concrete inputs. -/
def zeroSolver : List (List ℚ) → List ℚ → List ℚ × ℚ :=
  fun X _ => ((X.headD []).map (fun _ => 0), 0)

/-- Python dict assignment d[k] = v on a dict represented as an
association list in insertion order: an existing key is updated in
place, a new key is appended. -/
def dictSet (d : List (String × ℚ)) (k : String) (v : ℚ) : List (String × ℚ) :=
  if d.any (fun p => p.1 == k) then
    d.map (fun p => if p.1 == k then (p.1, v) else p)
  else d ++ [(k, v)]

/-- LinearRegression.predict on a one-row DataFrame: the library
validates that the row presents exactly the fitted feature columns and
otherwise raises a ValueError; on success it returns the intercept
plus the coefficient-weighted sum of the row. -/
def sklearnPredictRow (st : FittedState) (row : List (String × ℚ)) : Except PyError ℚ :=
  if row.map Prod.fst = st.feature_columns then
    Except.ok (st.intercept + row.foldl (fun acc p => acc + st.coef p.1 * p.2) 0)
  else Except.error (PyError.valueError featureMismatchMsg)

/-- NBAPredictor.predict of model.py: zero a dict keyed by the saved
feature_columns (absent on an unfit instance: AttributeError), assign
1 to the home and away indicator keys, and run the model on the
resulting one-row frame. -/
def NBAPredictor.predict (p : NBAPredictor) (home_team_id away_team_id : Int) :
    Except PyError ℚ :=
  match p.fitted with
  | none => Except.error (PyError.attributeError "feature_columns")
  | some st =>
      let data0 := st.feature_columns.map (fun c => (c, (0 : ℚ)))
      let data1 := dictSet data0 ("home_team_id_" ++ toString home_team_id) 1
      let data2 := dictSet data1 ("away_team_id_" ++ toString away_team_id) 1
      sklearnPredictRow st data2

/-- NBAPredictor.predict_scores of model.py: split avg_total
symmetrically around the predicted differential (default 200.0). -/
def NBAPredictor.predict_scores (p : NBAPredictor) (home_team_id away_team_id : Int)
    (avg_total : ℚ := 200) : Except PyError (ℚ × ℚ) :=
  (p.predict home_team_id away_team_id).map
    (fun diff => ((avg_total + diff) / 2, (avg_total - diff) / 2))

/-- A concrete fitted state (columns for home team 1 and away team 2,
coefficients 3 and -1, intercept 0) used to instantiate theorems. -/
def demoState : FittedState :=
  { feature_columns := ["home_team_id_1", "away_team_id_2"]
    coef := fun c => if c = "home_team_id_1" then 3 else if c = "away_team_id_2" then -1 else 0
    intercept := 0 }

/-- A predictor carrying `demoState`. -/
def demoPredictor : NBAPredictor := { fitted := some demoState }

/-- A second concrete fitted state, for instantiating the unseen-team
behaviour. -/
def demoState2 : FittedState :=
  { feature_columns := ["home_team_id_1", "away_team_id_2"]
    coef := fun _ => 0
    intercept := 5 }

/-! ### Relational store (database.py) -/

/-- Row of the Teams table. -/
structure TeamRow where
  id : Int
  name : String
  city : String
  deriving DecidableEq, Repr

/-- Row of the Players table (team_id is a nullable reference). -/
structure PlayerRow where
  id : Int
  name : String
  team_id : Option Int
  position : String
  deriving DecidableEq, Repr

/-- Row of the Games table (references and scores are nullable columns). -/
structure GameRow where
  id : Int
  date : String
  home_team_id : Option Int
  away_team_id : Option Int
  home_score : Option Int
  away_score : Option Int
  deriving DecidableEq, Repr

/-- The SQLite store: the three tables plus the sqlite_sequence
counters that back their AUTOINCREMENT primary keys. -/
structure Database where
  teams : List TeamRow
  players : List PlayerRow
  games : List GameRow
  teamSeq : Int
  playerSeq : Int
  gameSeq : Int
  deriving Repr

/-- A freshly created store: empty tables, sequence counters at 0. -/
def emptyDb : Database :=
  { teams := [], players := [], games := [], teamSeq := 0, playerSeq := 0, gameSeq := 0 }

/-- Largest id in a list, floored at 0. -/
def maxId (ids : List Int) : Int := ids.foldl max 0

/-- INSERT INTO Teams (name, city) VALUES (?, ?): AUTOINCREMENT
assigns one more than the largest id ever used. -/
def insertTeamAuto (db : Database) (name city : String) : Database :=
  let i := max db.teamSeq (maxId (db.teams.map TeamRow.id)) + 1
  { db with teams := db.teams ++ [{ id := i, name := name, city := city }], teamSeq := i }

/-- INSERT INTO Players (name, team_id, position) VALUES (?, ?, ?). -/
def insertPlayerAuto (db : Database) (name : String) (team_id : Option Int)
    (position : String) : Database :=
  let i := max db.playerSeq (maxId (db.players.map PlayerRow.id)) + 1
  let row : PlayerRow := { id := i, name := name, team_id := team_id, position := position }
  { db with players := db.players ++ [row], playerSeq := i }

/-- INSERT INTO Games (date, home_team_id, away_team_id, home_score, away_score). -/
def insertGameAuto (db : Database) (date : String)
    (home_team_id away_team_id home_score away_score : Option Int) : Database :=
  let i := max db.gameSeq (maxId (db.games.map GameRow.id)) + 1
  let row : GameRow :=
    { id := i, date := date, home_team_id := home_team_id, away_team_id := away_team_id,
      home_score := home_score, away_score := away_score }
  { db with games := db.games ++ [row], gameSeq := i }

/-- The fictional seed teams of populate_tables. -/
def seed_teams : List (String × String) :=
  [("Dragons", "Atlantis"), ("Wolves", "Moon City"), ("Sharks", "Coral Bay"),
    ("Falcons", "Skyville")]

/-- The fictional seed players of populate_tables. -/
def seed_players : List (String × Int × String) :=
  [("Alex Storm", 1, "Guard"), ("Blake Moon", 2, "Forward"), ("Casey Wave", 3, "Center"),
    ("Drew Sky", 4, "Guard"), ("Eli Blaze", 1, "Forward"), ("Finn Tide", 3, "Guard"),
    ("Gale Hawk", 4, "Center"), ("Harper Wolf", 2, "Center")]

/-- The fictional seed games of populate_tables. -/
def seed_games : List (String × Int × Int × Int × Int) :=
  [("2023-01-01", 1, 2, 102, 98), ("2023-01-02", 3, 4, 110, 105), ("2023-01-03", 1, 3, 99, 101),
    ("2023-01-04", 2, 4, 95, 100), ("2023-01-05", 4, 1, 108, 112), ("2023-01-06", 2, 3, 104, 107)]

/-- populate_tables of database.py: insert the fictional teams,
players and games with executemany (sequential autoincrement ids). -/
def populate_tables (db : Database) : Database :=
  let db1 := seed_teams.foldl (fun d p => insertTeamAuto d p.1 p.2) db
  let db2 := seed_players.foldl (fun d p => insertPlayerAuto d p.1 (some p.2.1) p.2.2) db1
  seed_games.foldl
    (fun d p => insertGameAuto d p.1 (some p.2.1) (some p.2.2.1) (some p.2.2.2.1)
      (some p.2.2.2.2)) db2

/-- A team record of the balldontlie teams endpoint. -/
structure ApiTeam where
  id : Int
  abbreviation : String
  city : String
  conference : String
  division : String
  full_name : String
  name : String
  deriving DecidableEq, Repr

/-- A game record of the balldontlie games endpoint, with nested
home/visitor team objects and nullable scores. -/
structure ApiGame where
  id : Int
  date : String
  home_team : ApiTeam
  visitor_team : ApiTeam
  home_team_score : Option Int
  visitor_team_score : Option Int
  deriving DecidableEq, Repr

/-- The paging loop of fetch_games_from_api: while fewer than
num_games games are accumulated, request the next page; stop on an
empty response, otherwise extend the accumulator and continue.  The
remote endpoint is modelled as the page-indexed family `pages`. -/
def fetchGamesAux (pages : Nat → List ApiGame) (numGames : Nat)
    (games : List ApiGame) (page : Nat) : List ApiGame :=
  if h : games.length < numGames then
    if hd : pages page = [] then games
    else fetchGamesAux pages numGames (games ++ pages page) (page + 1)
  else games
termination_by numGames - games.length
decreasing_by
  simp only [List.length_append]
  have hlen : (pages page).length ≠ 0 := fun hz => hd (List.length_eq_zero.mp hz)
  omega

/-- fetch_games_from_api of database.py: run the paging loop from an
empty accumulator and page 1, then truncate to num_games. -/
def fetch_games_from_api (pages : Nat → List ApiGame) (num_games : Nat) : List ApiGame :=
  (fetchGamesAux pages num_games [] 1).take num_games

/-- The pages requested by the paging loop, in order (the final
request — the one answered by an empty page, if any — included). -/
def fetchRequestsAux (pages : Nat → List ApiGame) (numGames : Nat)
    (games : List ApiGame) (page : Nat) : List Nat :=
  if h : games.length < numGames then
    if hd : pages page = [] then [page]
    else page :: fetchRequestsAux pages numGames (games ++ pages page) (page + 1)
  else []
termination_by numGames - games.length
decreasing_by
  simp only [List.length_append]
  have hlen : (pages page).length ≠ 0 := fun hz => hd (List.length_eq_zero.mp hz)
  omega

/-- Pages requested by fetch_games_from_api for a given endpoint and count. -/
def fetchRequests (pages : Nat → List ApiGame) (num_games : Nat) : List Nat :=
  fetchRequestsAux pages num_games [] 1

/-- Concatenation of the responses of `count` consecutive pages
starting at page `start` (the games accumulated by the loop). -/
def segment (pages : Nat → List ApiGame) (start : Nat) : Nat → List ApiGame
  | 0 => []
  | count + 1 => pages start ++ segment pages (start + 1) count

/-- Team row built from an API team record (columns id, name, city). -/
def apiTeamRow (t : ApiTeam) : TeamRow := { id := t.id, name := t.name, city := t.city }

/-- INSERT OR IGNORE INTO Teams (id, name, city): a row whose primary
key already exists is silently skipped. -/
def insertOrIgnoreTeamRow (db : Database) (t : TeamRow) : Database :=
  if db.teams.any (fun u => u.id == t.id) then db
  else { db with teams := db.teams ++ [t], teamSeq := max db.teamSeq t.id }

/-- The score filter of populate_tables_from_api: a fetched game is
kept only when both scores are non-null. -/
def keepGame (g : ApiGame) : Bool := g.home_team_score.isSome && g.visitor_team_score.isSome

/-- Body of the game-insert loop of populate_tables_from_api: insert
the game (date truncated to 10 characters, team ids taken from the
nested team objects) when both scores are non-null, else skip it. -/
def insertApiGame (db : Database) (g : ApiGame) : Database :=
  if keepGame g then
    insertGameAuto db (g.date.take 10) (some g.home_team.id) (some g.visitor_team.id)
      g.home_team_score g.visitor_team_score
  else db

/-- populate_tables_from_api of database.py: DELETE FROM Teams then
insert-or-ignore the fetched teams; DELETE FROM Games then insert the
fetched games that carry both scores.  Players is not touched. -/
def populate_tables_from_api (db : Database) (apiTeams : List ApiTeam)
    (pages : Nat → List ApiGame) (num_games : Nat) : Database :=
  let db1 := { db with teams := [] }
  let db2 := apiTeams.foldl (fun d t => insertOrIgnoreTeamRow d (apiTeamRow t)) db1
  let db3 := { db2 with games := [] }
  (fetch_games_from_api pages num_games).foldl insertApiGame db3

/-- The id-free column content of a Games row (date, references, scores). -/
def gameFields (g : GameRow) : String × Option Int × Option Int × Option Int × Option Int :=
  (g.date, g.home_team_id, g.away_team_id, g.home_score, g.away_score)

/-- The Games-row column content that populate_tables_from_api stores
for a fetched game. -/
def apiGameFields (g : ApiGame) : String × Option Int × Option Int × Option Int × Option Int :=
  (g.date.take 10, some g.home_team.id, some g.visitor_team.id,
    g.home_team_score, g.visitor_team_score)

/-- Teams-table content after insert-or-ignore of a list of API teams
into an existing list of rows. -/
def listInsertTeams (acc : List TeamRow) (ts : List ApiTeam) : List TeamRow :=
  ts.foldl (fun ac t => if ac.any (fun u => u.id == t.id) then ac else ac ++ [apiTeamRow t]) acc

/-- Existence of a team row with the given id. -/
def teamExists (teams : List TeamRow) (tid : Int) : Bool := teams.any (fun tm => tm.id == tid)

/-- The foreign-key condition for one Games row: each non-null team
reference resolves to an existing Teams row. -/
def gameRefsOk (teams : List TeamRow) (g : GameRow) : Bool :=
  (match g.home_team_id with
    | none => true
    | some t => teamExists teams t) &&
  (match g.away_team_id with
    | none => true
    | some t => teamExists teams t)

/-- The referential-integrity invariant of the data model: every Games
row of the store satisfies `gameRefsOk`. -/
def refsResolve (db : Database) : Bool := db.games.all (gameRefsOk db.teams)

/-! ### Loader (data_loader.py) and driver (main.py) -/

/-- A games row after load and preprocess: nulls filled with 0 and
scores coerced to integers. -/
structure LoadedGame where
  id : Int
  date : String
  home_team_id : Int
  away_team_id : Int
  home_score : Int
  away_score : Int
  deriving DecidableEq, Repr

/-- The games leg of preprocess_data in data_loader.py:
drop_duplicates (exact duplicate rows, keeping the first), fillna(0)
on the nullable columns, astype(int) on the score columns. -/
def preprocess_games (games : List GameRow) : List LoadedGame :=
  games.eraseDups.map (fun g =>
    { id := g.id, date := g.date,
      home_team_id := g.home_team_id.getD 0, away_team_id := g.away_team_id.getD 0,
      home_score := g.home_score.getD 0, away_score := g.away_score.getD 0 })

/-- valid_team_ids of main.py: the union of the home_team_id column
and the away_team_id column of the loaded games, as a set. -/
def valid_team_ids (games : List LoadedGame) : Finset Int :=
  (games.map LoadedGame.home_team_id).toFinset ∪ (games.map LoadedGame.away_team_id).toFinset

/-- valid_teams_df of main.py: the teams whose id is in valid_team_ids. -/
def valid_teams (teams : List TeamRow) (games : List LoadedGame) : List TeamRow :=
  teams.filter (fun t => t.id ∈ valid_team_ids games)

/-- Python str.strip(): remove leading and trailing whitespace. -/
def pyStrip (s : String) : String :=
  ⟨((s.data.dropWhile Char.isWhitespace).reverse.dropWhile Char.isWhitespace).reverse⟩

/-- Digit tail of a Python integer literal: ASCII digits with single
underscores allowed between digits. -/
def pyDigitsAux (acc : Nat) : List Char → Option Nat
  | [] => some acc
  | '_' :: c :: cs => if c.isDigit then pyDigitsAux (10 * acc + (c.toNat - 48)) cs else none
  | c :: cs => if c.isDigit then pyDigitsAux (10 * acc + (c.toNat - 48)) cs else none

/-- Nonempty run of digits (with inner underscores) as a number. -/
def pyDigits : List Char → Option Nat
  | [] => none
  | c :: cs => if c.isDigit then pyDigitsAux (c.toNat - 48) cs else none

/-- Python int(s) on a string: strip whitespace, optional sign, then a
digit run; None models the ValueError raised on anything else. -/
def pyInt (s : String) : Option Int :=
  match (pyStrip s).toList with
  | '+' :: rest => (pyDigits rest).map (fun n => (n : Int))
  | '-' :: rest => (pyDigits rest).map (fun n => -(n : Int))
  | rest => (pyDigits rest).map (fun n => (n : Int))

/-- The game-count prompt handling of main.py: int(answer.strip()),
with any parse failure caught and replaced by 100. -/
def game_count_answer (s : String) : Int :=
  match pyInt (pyStrip s) with
  | some n => n
  | none => 100

/-- The credential prompt handling of main.py: strip the answer and
treat an empty string as no API key. -/
def api_key_answer (s : String) : Option String :=
  let k := pyStrip s
  if k = "" then none else some k

/-! ### Concrete API data used to instantiate the theorems -/

/-- A concrete API team with id 5. -/
def demoApiTeam5 : ApiTeam :=
  { id := 5, abbreviation := "ALP", city := "Alpha City", conference := "East",
    division := "Atlantic", full_name := "Alpha City Five", name := "Five" }

/-- A concrete API team with id 6. -/
def demoApiTeam6 : ApiTeam :=
  { id := 6, abbreviation := "BET", city := "Beta Town", conference := "West",
    division := "Pacific", full_name := "Beta Town Six", name := "Six" }

/-- A concrete fetched game between the two demo teams, both scores present. -/
def demoApiGame : ApiGame :=
  { id := 11, date := "2024-01-02T00:00:00.000Z", home_team := demoApiTeam5,
    visitor_team := demoApiTeam6, home_team_score := some 100, visitor_team_score := some 90 }

/-- A one-page endpoint: page 1 holds the demo game, later pages are empty. -/
def demoPages : Nat → List ApiGame := fun p => if p = 1 then [demoApiGame] else []

/-! ### Lemmas about the prediction row -/

/-- Keys of a dict after d[k] = v: unchanged when k is present,
extended with k when absent. -/
theorem dictSet_keys (d : List (String × ℚ)) (k : String) (v : ℚ) :
    (dictSet d k v).map Prod.fst =
      if k ∈ d.map Prod.fst then d.map Prod.fst else d.map Prod.fst ++ [k] := by
  unfold dictSet
  by_cases hmem : k ∈ d.map Prod.fst
  · have hany : d.any (fun p => p.1 == k) = true := by
      rw [List.any_eq_true]
      obtain ⟨p, hp, hpk⟩ := List.mem_map.mp hmem
      exact ⟨p, hp, by simp [hpk]⟩
    rw [if_pos hany, if_pos hmem, List.map_map]
    congr 1
    funext p
    by_cases h : p.1 = k <;> simp [h]
  · have hany : d.any (fun p => p.1 == k) = false := by
      rw [List.any_eq_false]
      intro p hp hbeq
      exact hmem (List.mem_map.mpr ⟨p, hp, by simpa using hbeq⟩)
    rw [if_neg (by simp [hany]), if_neg hmem]
    simp

/-- The library rejects a prediction row whose key list differs from
the fitted columns. -/
theorem sklearnPredictRow_mismatch (st : FittedState) (row : List (String × ℚ))
    (hne : row.map Prod.fst ≠ st.feature_columns) :
    sklearnPredictRow st row = Except.error (PyError.valueError featureMismatchMsg) := by
  unfold sklearnPredictRow
  rw [if_neg hne]

/-! ### Claim C1 -/

/-- C1: whenever predict_scores returns a pair, the two scores sum to
the supplied total, and they are exactly (T + diff) / 2 and
(T - diff) / 2 for the differential diff returned by predict. -/
theorem predict_scores_splits_total (p : NBAPredictor) (h a : Int) (T hs aw : ℚ)
    (hok : p.predict_scores h a T = Except.ok (hs, aw)) :
    hs + aw = T ∧ ∃ d, p.predict h a = Except.ok d ∧ hs = (T + d) / 2 ∧ aw = (T - d) / 2 := by
  unfold NBAPredictor.predict_scores at hok
  cases hp : p.predict h a with
  | error e => rw [hp] at hok; simp [Except.map] at hok
  | ok d =>
      rw [hp] at hok
      simp only [Except.map, Except.ok.injEq, Prod.mk.injEq] at hok
      obtain ⟨h1, h2⟩ := hok
      refine ⟨?_, d, rfl, h1.symm, h2.symm⟩
      rw [← h1, ← h2]
      ring

/-- Witness for C1 at the concrete fitted predictor `demoPredictor`,
teams (1, 2) and total 10: the predicted scores are (6, 4). -/
theorem predict_scores_splits_total_witness :
    (6 : ℚ) + 4 = 10 ∧ demoPredictor.predict_scores 1 2 10 = Except.ok (6, 4) := by
  have hkey1 : "home_team_id_" ++ toString (1 : Int) = "home_team_id_1" := by decide
  have hkey2 : "away_team_id_" ++ toString (2 : Int) = "away_team_id_2" := by decide
  have hne1 : ("home_team_id_1" : String) ≠ "away_team_id_2" := by decide
  have hne2 : ("away_team_id_2" : String) ≠ "home_team_id_1" := by decide
  have hok : demoPredictor.predict_scores 1 2 10 = Except.ok (6, 4) := by
    norm_num [NBAPredictor.predict_scores, NBAPredictor.predict, demoPredictor, demoState,
      dictSet, sklearnPredictRow, hkey1, hkey2, hne1, hne2, Except.map]
  exact ⟨(predict_scores_splits_total demoPredictor 1 2 10 6 4 hok).1, hok⟩

/-! ### Claim C2 -/

/-- C2 (code behaviour): predicting with a home or away identifier
whose indicator column is not among the fitted columns adds a fresh
key to the prediction dict, so the one-row frame no longer matches the
fitted feature columns and the library raises a ValueError instead of
silently omitting the indicator. -/
theorem predict_unseen_team_raises (st : FittedState) (h a : Int)
    (hmiss : ("home_team_id_" ++ toString h) ∉ st.feature_columns ∨
      ("away_team_id_" ++ toString a) ∉ st.feature_columns) :
    NBAPredictor.predict { fitted := some st } h a =
      Except.error (PyError.valueError featureMismatchMsg) := by
  unfold NBAPredictor.predict
  have keys0 : (st.feature_columns.map (fun c => (c, (0 : ℚ)))).map Prod.fst =
      st.feature_columns := by
    rw [List.map_map]; exact List.map_id _
  have keys1 := dictSet_keys (st.feature_columns.map (fun c => (c, (0 : ℚ))))
    ("home_team_id_" ++ toString h) 1
  rw [keys0] at keys1
  have keys2 := dictSet_keys
    (dictSet (st.feature_columns.map (fun c => (c, (0 : ℚ)))) ("home_team_id_" ++ toString h) 1)
    ("away_team_id_" ++ toString a) 1
  apply sklearnPredictRow_mismatch
  by_cases hhk : ("home_team_id_" ++ toString h) ∈ st.feature_columns
  · have hak : ("away_team_id_" ++ toString a) ∉ st.feature_columns := by
      rcases hmiss with hm | hm
      · exact absurd hhk hm
      · exact hm
    rw [if_pos hhk] at keys1
    rw [keys1, if_neg hak] at keys2
    rw [keys2]
    intro hcontra
    have hlen := congrArg List.length hcontra
    simp only [List.length_append, List.length_cons, List.length_nil] at hlen
    omega
  · rw [if_neg hhk] at keys1
    rw [keys1] at keys2
    rw [keys2]
    by_cases hak : ("away_team_id_" ++ toString a) ∈ st.feature_columns ++
        ["home_team_id_" ++ toString h]
    · rw [if_pos hak]
      intro hcontra
      have hlen := congrArg List.length hcontra
      simp only [List.length_append, List.length_cons, List.length_nil] at hlen
      omega
    · rw [if_neg hak]
      intro hcontra
      have hlen := congrArg List.length hcontra
      simp only [List.length_append, List.length_cons, List.length_nil] at hlen
      omega

/-- Witness for C2: with the concrete fitted state `demoState2` (fit
columns for teams 1 and 2 only), predicting home team 5 raises the
feature-mismatch ValueError. -/
theorem predict_unseen_team_raises_witness :
    NBAPredictor.predict { fitted := some demoState2 } 5 2 =
      Except.error (PyError.valueError featureMismatchMsg) :=
  predict_unseen_team_raises demoState2 5 2 (Or.inl (by decide))

/-! ### Claim C3 -/

/-- C3 (amended): on a freshly constructed predictor, predict and
predict_scores never return a value: they fail with an AttributeError
for the missing feature_columns attribute (not a dedicated NotFitted
error). -/
theorem unfit_predict_fails_attribute_error :
    ∀ (h a : Int) (T : ℚ),
      NBAPredictor.init.predict h a = Except.error (PyError.attributeError "feature_columns") ∧
      NBAPredictor.init.predict_scores h a T =
        Except.error (PyError.attributeError "feature_columns") :=
  fun _ _ _ => ⟨rfl, rfl⟩

/-- Counterexample for C3 as stated: on the fresh predictor the error
raised by predict 1 2 is an AttributeError, not a NotFitted error. -/
theorem unfit_predict_not_notfitted_counterexample :
    NBAPredictor.init.predict 1 2 ≠ Except.error PyError.notFittedError ∧
    NBAPredictor.init.predict 1 2 = Except.error (PyError.attributeError "feature_columns") :=
  ⟨fun hcontra => PyError.noConfusion (Except.error.inj hcontra), rfl⟩

/-! ### Claim C4 -/

/-- C4 (amended): fitting on an empty game collection fails — the
library raises its zero-samples ValueError (there is no dedicated
EmptyInput error in the code) — so fit never returns a fitted
predictor on empty input, for any least-squares routine. -/
theorem fit_empty_raises_value_error :
    ∀ solver, NBAPredictor.fit solver [] = Except.error (PyError.valueError zeroSamplesMsg) :=
  fun _ => rfl

/-- Counterexample for C4 as stated: on the empty collection fit
raises the library ValueError, which is not an EmptyInput error. -/
theorem fit_empty_counterexample :
    NBAPredictor.fit zeroSolver [] ≠ Except.error PyError.emptyInputError ∧
    NBAPredictor.fit zeroSolver [] = Except.error (PyError.valueError zeroSamplesMsg) := by
  exact ⟨fun hcontra => PyError.noConfusion (Except.error.inj hcontra), rfl⟩

/-! ### Lemmas about the API import -/

/-- One step of the game-insert loop, on the id-free row contents. -/
theorem insertApiGame_games_fields (db : Database) (g : ApiGame) :
    (insertApiGame db g).games.map gameFields =
      db.games.map gameFields ++ (if keepGame g then [apiGameFields g] else []) := by
  by_cases hk : keepGame g <;>
    simp [insertApiGame, hk, insertGameAuto, gameFields, apiGameFields]

/-- The game-insert loop does not touch the Teams table. -/
theorem insertApiGame_teams (db : Database) (g : ApiGame) :
    (insertApiGame db g).teams = db.teams := by
  by_cases hk : keepGame g <;> simp [insertApiGame, hk, insertGameAuto]

/-- The game-insert loop does not touch the Players table. -/
theorem insertApiGame_players (db : Database) (g : ApiGame) :
    (insertApiGame db g).players = db.players := by
  by_cases hk : keepGame g <;> simp [insertApiGame, hk, insertGameAuto]

/-- The full game-insert loop appends exactly the kept games (by row
content) and leaves Teams and Players unchanged. -/
theorem foldl_insertApiGame (gs : List ApiGame) (db : Database) :
    ((gs.foldl insertApiGame db).games.map gameFields =
      db.games.map gameFields ++
        gs.filterMap (fun g => if keepGame g then some (apiGameFields g) else none)) ∧
    (gs.foldl insertApiGame db).teams = db.teams ∧
    (gs.foldl insertApiGame db).players = db.players := by
  induction gs generalizing db with
  | nil => simp
  | cons g gs ih =>
      obtain ⟨h1, h2, h3⟩ := ih (insertApiGame db g)
      refine ⟨?_, ?_, ?_⟩
      · rw [List.foldl_cons, h1, insertApiGame_games_fields, List.filterMap_cons]
        by_cases hk : keepGame g <;> simp [hk]
      · rw [List.foldl_cons, h2, insertApiGame_teams]
      · rw [List.foldl_cons, h3, insertApiGame_players]

/-- The team-insert loop computes `listInsertTeams` on the Teams table
and leaves Players and Games unchanged. -/
theorem foldl_insertTeams (ts : List ApiTeam) (db : Database) :
    ((ts.foldl (fun d t => insertOrIgnoreTeamRow d (apiTeamRow t)) db).teams =
      listInsertTeams db.teams ts) ∧
    (ts.foldl (fun d t => insertOrIgnoreTeamRow d (apiTeamRow t)) db).players = db.players ∧
    (ts.foldl (fun d t => insertOrIgnoreTeamRow d (apiTeamRow t)) db).games = db.games := by
  induction ts generalizing db with
  | nil => exact ⟨rfl, rfl, rfl⟩
  | cons t ts ih =>
      obtain ⟨h1, h2, h3⟩ := ih (insertOrIgnoreTeamRow db (apiTeamRow t))
      refine ⟨?_, ?_, ?_⟩
      · rw [List.foldl_cons, h1]
        show listInsertTeams (insertOrIgnoreTeamRow db (apiTeamRow t)).teams ts =
          listInsertTeams
            (if db.teams.any (fun u => u.id == t.id) then db.teams
              else db.teams ++ [apiTeamRow t]) ts
        congr 1
        by_cases hany : db.teams.any (fun u => u.id == t.id) = true <;>
          simp [insertOrIgnoreTeamRow, apiTeamRow, hany]
      · rw [List.foldl_cons, h2]
        by_cases hany : db.teams.any (fun u => u.id == (apiTeamRow t).id) = true <;>
          simp [insertOrIgnoreTeamRow, hany]
      · rw [List.foldl_cons, h3]
        by_cases hany : db.teams.any (fun u => u.id == (apiTeamRow t).id) = true <;>
          simp [insertOrIgnoreTeamRow, hany]

/-- Full behaviour of populate_tables_from_api: Players kept, Teams
rebuilt from the fetched teams alone, Games rebuilt from the kept
fetched games alone. -/
theorem populate_api_spec (db : Database) (apiTeams : List ApiTeam)
    (pages : Nat → List ApiGame) (n : Nat) :
    (populate_tables_from_api db apiTeams pages n).players = db.players ∧
    (populate_tables_from_api db apiTeams pages n).teams = listInsertTeams [] apiTeams ∧
    (populate_tables_from_api db apiTeams pages n).games.map gameFields =
      (fetch_games_from_api pages n).filterMap
        (fun g => if keepGame g then some (apiGameFields g) else none) := by
  simp only [populate_tables_from_api]
  obtain ⟨hg1, hg2, hg3⟩ := foldl_insertApiGame (fetch_games_from_api pages n)
    { apiTeams.foldl (fun d t => insertOrIgnoreTeamRow d (apiTeamRow t)) { db with teams := [] }
        with games := [] }
  obtain ⟨ht1, ht2, ht3⟩ := foldl_insertTeams apiTeams { db with teams := [] }
  refine ⟨?_, ?_, ?_⟩
  · rw [hg3]
    simpa using ht2
  · rw [hg2]
    simpa using ht1
  · rw [hg1]
    simp

/-! ### Claim C5 -/

/-- C5: the Games rows stored by the API import are exactly, in order
and by column content, the fetched games that have both scores
non-null; a game missing either score contributes no row at all. -/
theorem api_games_stored_iff_scores_present (db : Database) (apiTeams : List ApiTeam)
    (pages : Nat → List ApiGame) (n : Nat) :
    (populate_tables_from_api db apiTeams pages n).games.map gameFields =
      (fetch_games_from_api pages n).filterMap
        (fun g => if keepGame g then some (apiGameFields g) else none) :=
  (populate_api_spec db apiTeams pages n).2.2

/-! ### Claim C7 -/

/-- C7: the API import leaves the Players table untouched, and its
resulting Teams rows and Games row contents are the same whatever
Team and Game rows the store held before (delete-then-insert
wholesale replacement by the fetched data). -/
theorem api_import_wholesale_replacement (dbA dbB : Database) (apiTeams : List ApiTeam)
    (pages : Nat → List ApiGame) (n : Nat) :
    (populate_tables_from_api dbA apiTeams pages n).players = dbA.players ∧
    (populate_tables_from_api dbA apiTeams pages n).teams =
      (populate_tables_from_api dbB apiTeams pages n).teams ∧
    (populate_tables_from_api dbA apiTeams pages n).games.map gameFields =
      (populate_tables_from_api dbB apiTeams pages n).games.map gameFields := by
  obtain ⟨hA1, hA2, hA3⟩ := populate_api_spec dbA apiTeams pages n
  obtain ⟨hB1, hB2, hB3⟩ := populate_api_spec dbB apiTeams pages n
  exact ⟨hA1, hA2.trans hB2.symm, hA3.trans hB3.symm⟩

/-! ### Claim C6 -/

/-- Soundness of the request trace: a page is requested only when all
earlier pages were non-empty and the games accumulated before it fall
short of the requested count. -/
theorem fetchRequestsAux_sound (pages : Nat → List ApiGame) (n : Nat) :
    ∀ (fuel : Nat) (games : List ApiGame) (page p : Nat),
      n - games.length ≤ fuel →
      p ∈ fetchRequestsAux pages n games page →
      page ≤ p ∧ games.length + (segment pages page (p - page)).length < n ∧
        ∀ q, page ≤ q → q < p → pages q ≠ [] := by
  intro fuel
  induction fuel with
  | zero =>
      intro games page p hfuel hmem
      rw [fetchRequestsAux] at hmem
      rw [dif_neg (by omega)] at hmem
      simp at hmem
  | succ fuel ih =>
      intro games page p hfuel hmem
      rw [fetchRequestsAux] at hmem
      by_cases hlt : games.length < n
      · rw [dif_pos hlt] at hmem
        by_cases hemp : pages page = []
        · rw [dif_pos hemp] at hmem
          have hp : p = page := by simpa using hmem
          subst hp
          exact ⟨le_refl p, by simpa [segment] using hlt,
            fun q hq1 hq2 => absurd hq1 (by omega)⟩
        · rw [dif_neg hemp] at hmem
          rcases List.mem_cons.mp hmem with hp | hp
          · subst hp
            exact ⟨le_refl p, by simpa [segment] using hlt,
              fun q hq1 hq2 => absurd hq1 (by omega)⟩
          · have hlen : 0 < (pages page).length := List.length_pos.mpr hemp
            have hfuel2 : n - (games ++ pages page).length ≤ fuel := by
              rw [List.length_append]
              omega
            obtain ⟨hle, hacc, hne⟩ := ih (games ++ pages page) (page + 1) p hfuel2 hp
            rw [List.length_append] at hacc
            have hps : p - page = (p - (page + 1)) + 1 := by omega
            refine ⟨by omega, ?_, ?_⟩
            · rw [hps, segment, List.length_append]
              omega
            · intro q hq1 hq2
              rcases Nat.eq_or_lt_of_le hq1 with hq | hq
              · rw [← hq]
                exact hemp
              · exact hne q (by omega) hq2
      · rw [dif_neg hlt] at hmem
        simp at hmem

/-- C6: the API fetch returns at most the requested number of games,
and a page is requested only while every earlier page came back
non-empty and fewer than the requested count of games had been
accumulated. -/
theorem fetch_games_paging_bounded (pages : Nat → List ApiGame) (n : Nat) :
    (fetch_games_from_api pages n).length ≤ n ∧
    ∀ p, p ∈ fetchRequests pages n →
      (segment pages 1 (p - 1)).length < n ∧ ∀ q, 1 ≤ q → q < p → pages q ≠ [] := by
  constructor
  · unfold fetch_games_from_api
    exact List.length_take_le n _
  · intro p hp
    obtain ⟨h1, h2, h3⟩ := fetchRequestsAux_sound pages n n [] 1 p (by simp) hp
    exact ⟨by simpa using h2, h3⟩

/-- Witness for C6 on the one-page demo endpoint with requested count
2: page 2 is among the issued requests, and the theorem applies to it. -/
theorem fetch_games_paging_bounded_witness :
    (segment demoPages 1 1).length < 2 ∧ (fetch_games_from_api demoPages 2).length ≤ 2 := by
  have hmem : 2 ∈ fetchRequests demoPages 2 := by
    simp [fetchRequests, fetchRequestsAux, demoPages]
  exact ⟨((fetch_games_paging_bounded demoPages 2).2 2 hmem).1,
    (fetch_games_paging_bounded demoPages 2).1⟩

/-! ### Claim C8 -/

/-- C8: the driver's valid_team_ids is exactly the set of team
identifiers appearing as home_team_id or away_team_id of at least one
loaded game row, and a team row survives the roster filter exactly
when it is referenced by some game; a team referenced by no game is
excluded. -/
theorem valid_team_ids_exactly_referenced (teams : List TeamRow) (games : List LoadedGame)
    (t : Int) (tm : TeamRow) :
    (t ∈ valid_team_ids games ↔ ∃ g ∈ games, g.home_team_id = t ∨ g.away_team_id = t) ∧
    (tm ∈ valid_teams teams games ↔
      tm ∈ teams ∧ ∃ g ∈ games, g.home_team_id = tm.id ∨ g.away_team_id = tm.id) := by
  have key : ∀ s : Int, s ∈ valid_team_ids games ↔
      ∃ g ∈ games, g.home_team_id = s ∨ g.away_team_id = s := by
    intro s
    simp only [valid_team_ids, Finset.mem_union, List.mem_toFinset, List.mem_map]
    constructor
    · rintro (⟨g, hg, rfl⟩ | ⟨g, hg, rfl⟩)
      · exact ⟨g, hg, Or.inl rfl⟩
      · exact ⟨g, hg, Or.inr rfl⟩
    · rintro ⟨g, hg, rfl | rfl⟩
      · exact Or.inl ⟨g, hg, rfl⟩
      · exact Or.inr ⟨g, hg, rfl⟩
  refine ⟨key t, ?_⟩
  rw [valid_teams, List.mem_filter]
  simp only [decide_eq_true_eq]
  rw [key tm.id]

/-! ### Claim C9 -/

/-- Bool-level membership characterisation for team rows. -/
theorem teamExists_iff (teams : List TeamRow) (tid : Int) :
    teamExists teams tid = true ↔ ∃ tm ∈ teams, (tm : TeamRow).id = tid := by
  simp [teamExists, List.any_eq_true]

/-- Insert-or-ignore keeps every id it is given: an id occurring among
the inserted API teams, or already present, is present afterwards. -/
theorem listInsertTeams_covers (ts : List ApiTeam) :
    ∀ (acc : List TeamRow) (tid : Int),
      ((∃ t ∈ ts, (t : ApiTeam).id = tid) ∨ teamExists acc tid = true) →
      teamExists (listInsertTeams acc ts) tid = true := by
  induction ts with
  | nil =>
      intro acc tid h
      rcases h with h | h
      · simp at h
      · simpa [listInsertTeams] using h
  | cons t ts ih =>
      intro acc tid h
      have hstep : listInsertTeams acc (t :: ts) =
          listInsertTeams
            (if acc.any (fun u => u.id == t.id) then acc else acc ++ [apiTeamRow t]) ts := rfl
      rw [hstep]
      apply ih
      have hgrow : teamExists acc tid = true →
          teamExists (if acc.any (fun u => u.id == t.id) then acc
            else acc ++ [apiTeamRow t]) tid = true := by
        intro hx
        by_cases hany : acc.any (fun u => u.id == t.id) = true
        · rw [if_pos hany]
          exact hx
        · rw [if_neg hany]
          simp only [teamExists, List.any_append, Bool.or_eq_true]
          exact Or.inl hx
      rcases h with ⟨u, hu, hid⟩ | h
      · rcases List.mem_cons.mp hu with rfl | hu2
        · refine Or.inr ?_
          subst hid
          by_cases hany : acc.any (fun v => v.id == u.id) = true
          · rw [if_pos hany]
            simpa [teamExists] using hany
          · rw [if_neg hany]
            simp [teamExists, List.any_append, apiTeamRow]
        · exact Or.inl ⟨u, hu2, hid⟩
      · exact Or.inr (hgrow h)

/-- C9 (amended): referential integrity — every stored game reference
resolving to a Teams row — holds after the fictional seed import on a
fresh store, and after the API import provided every fetched game's
home and visitor team identifiers occur among the fetched teams (a
condition the importer itself does not enforce). -/
theorem seed_and_api_refs_resolve :
    refsResolve (populate_tables emptyDb) = true ∧
    ∀ (db : Database) (apiTeams : List ApiTeam) (pages : Nat → List ApiGame) (n : Nat),
      (∀ g ∈ fetch_games_from_api pages n,
        (∃ t ∈ apiTeams, (t : ApiTeam).id = g.home_team.id) ∧
        (∃ t ∈ apiTeams, (t : ApiTeam).id = g.visitor_team.id)) →
      refsResolve (populate_tables_from_api db apiTeams pages n) = true := by
  constructor
  · decide
  · intro db apiTeams pages n hcover
    obtain ⟨hp, ht, hg⟩ := populate_api_spec db apiTeams pages n
    rw [refsResolve, List.all_eq_true]
    intro grow hgrow
    have hmem : gameFields grow ∈
        (populate_tables_from_api db apiTeams pages n).games.map gameFields :=
      List.mem_map_of_mem _ hgrow
    rw [hg, List.mem_filterMap] at hmem
    obtain ⟨g, hgfetch, hgeq⟩ := hmem
    by_cases hk : keepGame g
    · rw [if_pos hk] at hgeq
      have hfields : apiGameFields g = gameFields grow := Option.some.inj hgeq
      have hhome : grow.home_team_id = some g.home_team.id :=
        (congrArg (fun x => x.2.1) hfields).symm
      have haway : grow.away_team_id = some g.visitor_team.id :=
        (congrArg (fun x => x.2.2.1) hfields).symm
      obtain ⟨hch, hcv⟩ := hcover g hgfetch
      have hTh : teamExists (populate_tables_from_api db apiTeams pages n).teams
          g.home_team.id = true := by
        rw [ht]
        exact listInsertTeams_covers apiTeams [] g.home_team.id (Or.inl hch)
      have hTv : teamExists (populate_tables_from_api db apiTeams pages n).teams
          g.visitor_team.id = true := by
        rw [ht]
        exact listInsertTeams_covers apiTeams [] g.visitor_team.id (Or.inl hcv)
      simp only [gameRefsOk, hhome, haway, Bool.and_eq_true]
      exact ⟨hTh, hTv⟩
    · rw [if_neg hk] at hgeq
      simp at hgeq

/-- Witness for C9 instantiating the API half on the demo endpoint,
with the two referenced teams among the fetched teams. -/
theorem seed_and_api_refs_resolve_witness :
    refsResolve (populate_tables emptyDb) = true ∧
    refsResolve
      (populate_tables_from_api emptyDb [demoApiTeam5, demoApiTeam6] demoPages 1) = true := by
  refine ⟨seed_and_api_refs_resolve.1,
    seed_and_api_refs_resolve.2 emptyDb [demoApiTeam5, demoApiTeam6] demoPages 1 ?_⟩
  intro g hg
  have hfg : fetch_games_from_api demoPages 1 = [demoApiGame] := by
    simp [fetch_games_from_api, fetchGamesAux, demoPages]
  rw [hfg] at hg
  have hgd : g = demoApiGame := by simpa using hg
  subst hgd
  exact ⟨⟨demoApiTeam5, by simp, rfl⟩, ⟨demoApiTeam6, by simp, rfl⟩⟩

/-- Counterexample for C9 as stated: an API response whose only game
references team ids 5 and 6 while the teams endpoint returns nothing
leaves a stored game whose references resolve to no Teams row. -/
theorem api_refs_unresolved_counterexample :
    refsResolve (populate_tables_from_api emptyDb [] demoPages 1) = false := by
  have hfg : fetch_games_from_api demoPages 1 = [demoApiGame] := by
    simp [fetch_games_from_api, fetchGamesAux, demoPages]
  simp [populate_tables_from_api, hfg, emptyDb, insertApiGame, keepGame, demoApiGame,
    insertGameAuto, refsResolve, gameRefsOk, teamExists, maxId]

/-! ### Claim C10 -/

/-- C10: the driver's game-count prompt falls back to 100 exactly when
the stripped answer fails Python integer parsing (and otherwise uses
the parsed value), and a credential answer that strips to the empty
string is treated as no API key. -/
theorem game_count_fallback_and_empty_key (s : String) :
    game_count_answer s = (pyInt (pyStrip s)).getD 100 ∧
    api_key_answer s = (if pyStrip s = "" then none else some (pyStrip s)) ∧
    game_count_answer "not a number" = 100 ∧
    game_count_answer " 250 " = 250 ∧
    api_key_answer "" = none := by
  refine ⟨?_, rfl, by decide, by decide, rfl⟩
  cases hp : pyInt (pyStrip s) <;> simp [game_count_answer, hp]

end Hooper
